import Mathlib

/-!
Verification development for the superloop repository: a shallow embedding of
the estimator plug-ins (`superloop_plug_in/`) and the script helpers
(`scripts/utils.py`, `scripts/plots.py`), with theorems settling the spec's
claims about them.

Python floats are modelled as exact rationals `ℚ` (the claims concern branch
structure, table lookups and exact multipliers, not rounding); the one
irrational constant (a square root inside the AQFP energy formula) is modelled
over `ℝ`.  Python exceptions (assertions, `TypeError`, `KeyError`) are
modelled with `Except String`/`Option`; in-place mutation is modelled as
state passing.
-/

namespace Superloop

instance exceptDecEq {ε α : Type} [DecidableEq ε] [DecidableEq α] :
    DecidableEq (Except ε α) := fun x y =>
  match x, y with
  | .ok a, .ok b =>
    if h : a = b then .isTrue (by rw [h])
    else .isFalse (by intro he; cases he; exact h rfl)
  | .error a, .error b =>
    if h : a = b then .isTrue (by rw [h])
    else .isFalse (by intro he; cases he; exact h rfl)
  | .ok _, .error _ => .isFalse (by intro he; cases he)
  | .error _, .ok _ => .isFalse (by intro he; cases he)

/-! ## Cooling overhead post-processing (`scripts/utils.py`)

`add_cooling_overhead(result, spec)` reads per-component energies from a
completed result and mutates them in place.  A `Result` holds
`per_component_energy` (component name → joules, a dict modelled as an
association list), `cycles`, `cycle_seconds` and the aggregate `energy`.
The per-component temperatures extracted from the spec by
`get_per_component_temperature` are modelled as an association list
`List (String × Option ℚ)` (`none` models a Python `None` temperature value;
a component key absent from the list models a component with no spec node,
which the Python loop never touches). -/

structure SimResult where
  per_component_energy : List (String × ℚ)
  cycles : ℚ
  cycle_seconds : ℚ
  energy : ℚ
  deriving DecidableEq, Repr

/-- Lookup of a component's temperature entry in the extracted
`comp_temp` mapping (outer `none`: the key is absent; inner `none`:
the Python value is `None`). -/
def lookupTemp (temps : List (String × Option ℚ)) (k : String) :
    Option (Option ℚ) :=
  (temps.find? (fun p => p.1 == k)).map Prod.snd

/-- `any(v < 10 for v in comp_temp.values())` from `add_cooling_overhead`:
short-circuiting scan of the temperature values in order; comparing a
Python `None` against `10` raises a `TypeError`, modelled as `.error`. -/
def cooling_to_4K : List (String × Option ℚ) → Except String Bool
  | [] => .ok false
  | (_, none) :: _ => .error "TypeError: unsupported comparison of None and int"
  | (_, some t) :: rest =>
    if t < 10 then .ok true else cooling_to_4K rest

/-- The body of the `for k,v in comp_temp.items()` loop of
`add_cooling_overhead` for one component: given the `cooling_to_4K` flag,
the result's `cycles` and `cycle_seconds`, the component's current energy `e`
and its temperature `t`, returns the component's new energy.
Mirrors the source: `None` skipped; `200 < v < 300` skipped;
`10 < v < 80` applies the first-stage branch (power-gated 93.75x when
cooling to 4K, unconditional 93.75x otherwise); `v < 10` multiplies by
1000. -/
def updateEnergy (c4 : Bool) (cycles cycle_seconds : ℚ)
    (e : ℚ) (t : Option ℚ) : ℚ :=
  match t with
  | none => e
  | some v =>
    if 200 < v ∧ v < 300 then e
    else
      let e1 :=
        if 10 < v ∧ v < 80 then
          if c4 then
            if e / (cycles * cycle_seconds) < 80 then e else e * 93.75
          else e * 93.75
        else e
      if v < 10 then e1 * 1000 else e1

/-- `add_cooling_overhead(result, spec)` with the temperatures already
extracted: computes the `cooling_to_4K` flag (propagating the `TypeError`
on a `None` temperature), rewrites each component's energy with
`updateEnergy`, and recomputes the aggregate `energy` as the sum of the
per-component values. -/
def add_cooling_overhead (r : SimResult)
    (temps : List (String × Option ℚ)) : Except String SimResult :=
  match cooling_to_4K temps with
  | .error e => .error e
  | .ok c4 =>
    let pce := r.per_component_energy.map (fun p =>
      match lookupTemp temps p.1 with
      | none => p
      | some t => (p.1, updateEnergy c4 r.cycles r.cycle_seconds p.2 t))
    .ok { per_component_energy := pce
          cycles := r.cycles
          cycle_seconds := r.cycle_seconds
          energy := (pce.map Prod.snd).sum }

example :
    add_cooling_overhead ⟨[("pe", 2)], 1, 1, 0⟩ [("pe", some 5)] =
      .ok ⟨[("pe", 2000)], 1, 1, 2000⟩ := by
  simp [add_cooling_overhead, cooling_to_4K, lookupTemp, updateEnergy,
    List.find?]
  norm_num

example :
    add_cooling_overhead ⟨[("pe", 1)], 1, 1, 0⟩ [("pe", some 50)] =
      .ok ⟨[("pe", 375/4)], 1, 1, 375/4⟩ := by
  simp [add_cooling_overhead, cooling_to_4K, lookupTemp, updateEnergy,
    List.find?]
  norm_num

example :
    add_cooling_overhead ⟨[("pe", 1), ("q", 1)], 1, 1, 0⟩
      [("pe", some 50), ("q", some 4)] =
      .ok ⟨[("pe", 1), ("q", 1000)], 1, 1, 1001⟩ := by
  simp [add_cooling_overhead, cooling_to_4K, lookupTemp, updateEnergy,
    List.find?]
  norm_num

/-! ## Sweep driver (`scripts/utils.py`, `generate_result`)

The body of `generate_result`'s `try:` block (specification construction,
the external mapper call, zero-energy clearing and the optional cooling
post-processing) is a call into the external simulator; its outcome is
abstracted as an `Except String SimResult` argument.  The `except` clause is
embedded exactly: on failure, re-raise unless `return_none_on_fail`, in which
case report `None`. -/

def generate_result (return_none_on_fail : Bool)
    (attempt : Except String SimResult) : Except String (Option SimResult) :=
  match attempt with
  | .ok r => .ok (some r)
  | .error e => if return_none_on_fail then .ok none else .error e

/-! ## Plotting helper (`scripts/plots.py`, `consolidate_keys`)

`consolidate_keys(data, missing_ok)` over a list of dicts (the dict-of-dicts
entry point passes `data.values()`, and the typed embedding fixes every
element to be a dict, so the mixed-type assertion and the non-dict `[""]`
return of the source cannot fire).  Keys are accumulated in first-occurrence
order; with `missing_ok=False` a `ValueError` is raised when some dict is
missing one of the accumulated keys. -/

def consolidate_keys (data : List (List (String × ℚ)))
    (missing_ok : Bool) : Except String (List String) :=
  match data with
  | [] => .ok []
  | _ =>
    let allkeys := data.foldl
      (fun acc d => acc ++ (d.map Prod.fst).filter (fun k => !(acc.contains k)))
      []
    if !missing_ok &&
        !(data.all (fun d => allkeys.all (fun k => (d.map Prod.fst).contains k)))
      then .error "Key missing from dictionary"
      else .ok allkeys

example : consolidate_keys [[("a", 1)], [("b", 2)]] true = .ok ["a", "b"] := by
  simp [consolidate_keys]

example :
    consolidate_keys [[("a", 1)], [("b", 2)]] false =
      .error "Key missing from dictionary" := by
  simp [consolidate_keys]

/-! ## Placeholder memory estimators (`superloop_plug_in/memory.py`)

`VTcellRAM` and `AQFP_Dlatch` store their constructor arguments and return
`0` from every method. -/

structure VTcellRAM where
  global_cycle_seconds : ℚ
  width : ℤ
  depth : ℤ
  deriving DecidableEq

def VTcellRAM.read (_ : VTcellRAM) : ℚ := 0

def VTcellRAM.write (_ : VTcellRAM) : ℚ := 0

def VTcellRAM.update (_ : VTcellRAM) : ℚ := 0

def VTcellRAM.leak (_ : VTcellRAM) : ℚ := 0

def VTcellRAM.get_area (_ : VTcellRAM) : ℚ := 0

structure AQFP_Dlatch where
  global_cycle_seconds : ℚ
  width : ℤ
  depth : ℤ
  deriving DecidableEq

def AQFP_Dlatch.read (_ : AQFP_Dlatch) : ℚ := 0

def AQFP_Dlatch.write (_ : AQFP_Dlatch) : ℚ := 0

def AQFP_Dlatch.update (_ : AQFP_Dlatch) : ℚ := 0

def AQFP_Dlatch.leak (_ : AQFP_Dlatch) : ℚ := 0

def AQFP_Dlatch.get_area (_ : AQFP_Dlatch) : ℚ := 0

/-! ## CryoSRAM (`superloop_plug_in/memory.py`)

The `cell2energies` class table holds two-entry rows `[read, write]`; the
action methods index the row of the constructed `cell_type`, and a Python
`IndexError` on an out-of-range index is modelled by `List.get?` returning
`none`. -/

structure CryoSRAM where
  type : String
  width : ℤ
  depth : ℤ
  global_cycle_seconds : ℚ
  deriving DecidableEq

def CryoSRAM.cell2energies : List (String × List ℚ) :=
  [("6T_static", [618, 473])]

def CryoSRAM.init (global_cycle_seconds : ℚ) (cell_type : String)
    (width depth : ℤ) : Except String CryoSRAM :=
  if (CryoSRAM.cell2energies.find? (fun p => p.1 == cell_type)).isSome then
    .ok { type := cell_type, width := width, depth := depth
          global_cycle_seconds := global_cycle_seconds }
  else .error "cell type not in cell2energies"

/-- The row `self.cell2energies[self.type]` (total lookup: `init` guarantees
membership, the default branch is unreachable from a constructed state). -/
def CryoSRAM.row (s : CryoSRAM) : List ℚ :=
  ((CryoSRAM.cell2energies.find? (fun p => p.1 == s.type)).map Prod.snd).getD []

def CryoSRAM.read (s : CryoSRAM) : Option ℚ :=
  (s.row.get? 0).map (fun x => x * 1e-15 * (s.width : ℚ))

def CryoSRAM.write (s : CryoSRAM) : Option ℚ :=
  (s.row.get? 1).map (fun x => x * 1e-15 * (s.width : ℚ))

def CryoSRAM.update (s : CryoSRAM) : Option ℚ :=
  (s.row.get? 2).map (fun x => x * 1e-15 * (s.width : ℚ))

example :
    ∀ s : CryoSRAM, CryoSRAM.init 1 "6T_static" 32 32 = .ok s →
      CryoSRAM.update s = none := by
  intro s h
  simp [CryoSRAM.init, CryoSRAM.cell2energies] at h
  simp [CryoSRAM.update, CryoSRAM.row, CryoSRAM.cell2energies, ← h]

/-! ## AQFP components (`superloop_plug_in/aqfp_components.py`)

`AQFPEstimator` validates `cell_node` against `CELL_NODE_LOOKUP` and
`forecast` against `FORECAST_OPTIONS` at construction, then stores the cell
node record, the forecast, and `frequency = 1/global_cycle_seconds/clock_derate`.
`qfp_count` is produced by the subclass hook `get_device_count()`; it is
passed to `init` as the `device_count` argument. -/

def FORECAST_OPTIONS : List String := ["conservative", "moderate", "aggressive"]

structure CellNode where
  width : Option ℚ
  height : Option ℚ
  area : ℚ
  loss_tangent : ℚ
  deriving DecidableEq

def CELL_NODE_LOOKUP : List (String × CellNode) :=
  [("v1.0", ⟨some 20e-6, some 20e-6, 400e-12, 1.5e-3⟩),
   ("vInf.0", ⟨none, none, 1e-10, 1.5e-3⟩),
   ("vInf.1", ⟨none, none, 4.5e-12, 1e-5⟩)]

structure AQFPEstimator where
  cell_node : CellNode
  forecast : String
  clock_derate : ℚ
  frequency : ℚ
  phase_count : ℤ
  qfp_count : ℚ
  deriving DecidableEq

def AQFPEstimator.init (cell_node : String) (global_cycle_seconds : ℚ)
    (clock_derate : ℚ) (forecast : String) (phase_count : ℤ)
    (device_count : ℚ) : Except String AQFPEstimator :=
  match CELL_NODE_LOOKUP.find? (fun p => p.1 == cell_node) with
  | none => .error "Unsupported cell node, must be a recognized key"
  | some p =>
    if forecast ∈ FORECAST_OPTIONS then
      .ok { cell_node := p.2, forecast := forecast
            clock_derate := clock_derate
            frequency := 1 / global_cycle_seconds / clock_derate
            phase_count := phase_count, qfp_count := device_count }
    else .error "Unsupported forecast mode, must be one of the following"

/-- `lookup_energy(frequency)`: the switching-energy formula
`E_sw = 2*PHI0*50e-6*(tj/tx)` with `tj = sqrt(2*pi*PHI0*3.5e-14/(544*100e-6))`
and `tx = 1/(4*frequency)`.  The square root forces this over `ℝ`. -/
noncomputable def AQFPEstimator.lookup_energy (frequency : ℝ) : ℝ :=
  let PHI0 : ℝ := 2.07e-15
  let tj : ℝ := Real.sqrt (2 * Real.pi * PHI0 * 3.5e-14 / (544 * 100e-6))
  let tx : ℝ := 1 / (4 * frequency)
  2 * PHI0 * 50e-6 * (tj / tx)

noncomputable def AQFPEstimator.leak (s : AQFPEstimator) : ℝ :=
  (s.qfp_count : ℝ) * AQFPEstimator.lookup_energy (s.frequency : ℝ) /
    (s.clock_derate : ℝ)

def AQFPEstimator.get_area (s : AQFPEstimator) : ℚ :=
  let routing : ℚ :=
    if s.forecast == "conservative" then 1.3
    else if s.forecast == "moderate" then 1.2
    else 1.1
  s.qfp_count * s.cell_node.area * routing

/-! ## Delay-line memory (`superloop_plug_in/memory.py`, `DLMPassive`)

`cell_type` is validated against the `cell2density` table; `time_bin`
defaults to `global_cycle_seconds` when not given (`None`); the bias
overhead is the constant `1.5`. -/

structure DLMPassive where
  type : String
  global_cycle_seconds : ℚ
  line_depth : ℤ
  line_count : ℤ
  time_bin : ℚ
  bias_overhead : ℚ
  deriving DecidableEq

def DLMPassive.cell2density : List (String × (ℚ × ℚ)) :=
  [("Nb_mature", (0.298, 500)),
   ("Nb_aggressive", (0.296, 240)),
   ("MoN_ms_mature", (0.047, 500)),
   ("MoN_ms_aggressive", (0.034, 240)),
   ("MoN_sl_aggressive", (0.029, 240)),
   ("NbTiN_sl_academic", (0.011, 220)),
   ("NbN_academic", (0.007, 135))]

def DLMPassive.init (global_cycle_seconds : ℚ) (line_depth line_count : ℤ)
    (time_bin : Option ℚ) (cell_type : String) : Except String DLMPassive :=
  if (DLMPassive.cell2density.find? (fun p => p.1 == cell_type)).isSome then
    .ok { type := cell_type
          global_cycle_seconds := global_cycle_seconds
          line_depth := line_depth, line_count := line_count
          time_bin := time_bin.getD global_cycle_seconds
          bias_overhead := 1.5 }
  else .error "cell type not in cell2density"

def DLMPassive.write (s : DLMPassive) : ℚ :=
  9.57e-19 * s.bias_overhead * (s.line_count : ℚ)

def DLMPassive.leak (s : DLMPassive) : ℚ :=
  let pulse_prop : ℚ := 6.19e-18
  let overclock := s.global_cycle_seconds / s.time_bin
  pulse_prop * s.bias_overhead * (s.line_count : ℚ) * overclock

/-- The `cell2density[self.type]` row (total lookup: `init` guarantees
membership, the default branch is unreachable from a constructed state). -/
def DLMPassive.density (s : DLMPassive) : ℚ × ℚ :=
  ((DLMPassive.cell2density.find? (fun p => p.1 == s.type)).map
    Prod.snd).getD (0, 0)

def DLMPassive.get_area (s : DLMPassive) : ℚ :=
  let pulse_speed := s.density.1 * 3e8
  let pitch := s.density.2 * 1e-9
  (s.time_bin * pulse_speed * pitch) * (s.line_depth : ℚ) * (s.line_count : ℚ)

/-! ## Cryo DRAM (`superloop_plug_in/memory.py`, `CryoDRAM`) -/

structure CryoDRAM where
  type : String
  width : ℤ
  depth : ℤ
  global_cycle_seconds : ℚ
  deriving DecidableEq

def CryoDRAM.cell2energies : List (String × List ℚ) :=
  [("2T_NW-PR", [346, 153.5, 22]),
   ("3T_NW-PR", [410, 156.5, 23.5]),
   ("3T_PW-PR", [262, 212, 22.2])]

def CryoDRAM.init (global_cycle_seconds : ℚ) (width depth : ℤ)
    (cell_type : String) : Except String CryoDRAM :=
  if (CryoDRAM.cell2energies.find? (fun p => p.1 == cell_type)).isSome then
    .ok { type := cell_type, width := width, depth := depth
          global_cycle_seconds := global_cycle_seconds }
  else .error "cell type not in cell2energies"

/-! ## Cryogenic cables (`superloop_plug_in/inter_temp.py`, `Cables`)

Construction first derives the temperature route through the cascade of
`if` statements (later matches overwrite earlier ones), asserts the route is
defined, then resolves the heatload: a `type` of `0` (a Python int sentinel,
modelled as `CableTypeArg.zero`) uses the explicitly given stage loads, a
string `type` is validated against `CRYOCABLE_LOAD`. -/

def CRYOCABLE_LOAD : List (String × (ℚ × ℚ)) :=
  [("delft_crioflex_Ag", (2.7e-3, 0.8e-3)),
   ("BeCu_hypres_stripline1", (1.48e-3, 0.44e-3)),
   ("BeCu_hypres_stripline2", (2.5e-3, 0.74e-3)),
   ("BeCu_hypres_stripline3", (3.78e-3, 1.118e-3)),
   ("BeCu_hypres_coax", (8.35e-3, 2.473e-3))]

/-- The route cascade of `Cables.__init__` (lines 86-94). -/
def cablesRoute (hot_temp cold_temp : ℚ) : String :=
  let r := ""
  let r := if hot_temp > 100 ∧ cold_temp > 10 then "RT->1" else r
  let r := if hot_temp < 100 ∧ cold_temp < 10 then "1->2" else r
  let r := if hot_temp > 100 ∧ cold_temp < 10 then "RT->2" else r
  if hot_temp = cold_temp then "stationary" else r

/-- The Python `type` argument of `Cables`: either the int sentinel `0` or a
cable-type name. -/
inductive CableTypeArg where
  | zero : CableTypeArg
  | str : String → CableTypeArg
  deriving DecidableEq

structure Cables where
  hot_temp : ℚ
  cold_temp : ℚ
  channel_count : ℤ
  electrical_only : Bool
  freq : ℚ
  route : String
  stage1_load : ℚ
  stage2_load : ℚ
  deriving DecidableEq

def Cables.init (global_cycle_seconds : ℚ) (hot_temp cold_temp : ℚ)
    (channel_count : ℤ) (type : CableTypeArg) (electrical_only : Bool)
    (stage1_load stage2_load : ℚ) : Except String Cables :=
  let route := cablesRoute hot_temp cold_temp
  if route = "" then
    .error "Hot2ColdNetwork must be defined for routes in typical two stage cryocooler"
  else
    let base : Cables :=
      { hot_temp := hot_temp, cold_temp := cold_temp
        channel_count := channel_count, electrical_only := electrical_only
        freq := 1 / global_cycle_seconds, route := route
        stage1_load := stage1_load, stage2_load := stage2_load }
    match type with
    | .zero => .ok base
    | .str s =>
      match CRYOCABLE_LOAD.find? (fun p => p.1 == s) with
      | some p => .ok { base with stage1_load := p.2.1, stage2_load := p.2.2 }
      | none =>
        .error "If using cryocable type, it must be in CRYOCABLE_LOAD, or set type to 0 and provide stage1_load and stage2_load"

def Cables.leak (s : Cables) : ℚ :=
  if s.electrical_only then 0
  else
    let heatload :=
      if s.route = "RT->1" then s.stage1_load
      else if s.route = "1->2" then s.stage2_load
      else if s.route = "RT->2" then s.stage1_load + s.stage2_load
      else 0
    (heatload / s.freq) * (s.channel_count : ℚ)

/-! ## Cold-to-hot network (`superloop_plug_in/inter_temp.py`,
`Cold2HotNetwork`)

The amplifier type is validated first (line 308); the route cascade and its
assertion follow (lines 312-321); the `diff_amp_energy` and `lna_energy`
constants are then derived from the frequency. -/

def amp_type_options : List String := ["aqfp_diffamp", "JLD_diffamp", "nTron"]

/-- The route cascade of `Cold2HotNetwork.__init__` (lines 313-320). -/
def cold2hotRoute (hot_temp cold_temp : ℚ) : String :=
  let r := ""
  let r := if hot_temp > 100 ∧ cold_temp > 10 then "1->RT" else r
  let r := if hot_temp < 100 ∧ cold_temp < 10 then "2->1" else r
  let r := if hot_temp > 100 ∧ cold_temp < 10 then "2->RT" else r
  if hot_temp = cold_temp then "stationary" else r

structure Cold2HotNetwork where
  datawidth : ℤ
  hot_temp : ℚ
  cold_temp : ℚ
  channel_count : ℤ
  amp_type : String
  v_load : ℚ
  freq : ℚ
  route : String
  diff_amp_energy : ℚ
  lna_energy : ℚ
  deriving DecidableEq

def Cold2HotNetwork.init (global_cycle_seconds : ℚ) (datawidth : ℤ)
    (hot_temp cold_temp : ℚ) (channel_count : ℤ) (amp_type : String)
    (v_load : ℚ) : Except String Cold2HotNetwork :=
  if amp_type ∈ amp_type_options then
    let freq := 1 / global_cycle_seconds
    let route := cold2hotRoute hot_temp cold_temp
    if route = "" then
      .error "Cold2HotNetwork must be defined for routes in typical two stage cryocooler"
    else
      .ok { datawidth := datawidth, hot_temp := hot_temp
            cold_temp := cold_temp, channel_count := channel_count
            amp_type := amp_type, v_load := v_load, freq := freq
            route := route
            diff_amp_energy := (7.25e-3 / 17) / freq
            lna_energy := (3.3 * 10.5e-3) / freq }
  else .error "Unsupported amplifier type, must be one of the following"

/-! ## Helper lemmas about `add_cooling_overhead` -/

/-- The per-component rewrite applied by `add_cooling_overhead`. -/
def coolingMapFn (c4 : Bool) (cycles cycle_seconds : ℚ)
    (temps : List (String × Option ℚ)) (p : String × ℚ) : String × ℚ :=
  match lookupTemp temps p.1 with
  | none => p
  | some t => (p.1, updateEnergy c4 cycles cycle_seconds p.2 t)

lemma add_cooling_overhead_eq {r : SimResult} {temps} {c4 : Bool}
    (hc4 : cooling_to_4K temps = .ok c4) :
    add_cooling_overhead r temps = .ok
      { per_component_energy := r.per_component_energy.map
          (coolingMapFn c4 r.cycles r.cycle_seconds temps)
        cycles := r.cycles
        cycle_seconds := r.cycle_seconds
        energy := ((r.per_component_energy.map
          (coolingMapFn c4 r.cycles r.cycle_seconds temps)).map Prod.snd).sum } := by
  unfold add_cooling_overhead coolingMapFn
  rw [hc4]

lemma add_cooling_overhead_get? {r : SimResult} {temps} {c4 : Bool}
    {r' : SimResult} (hc4 : cooling_to_4K temps = .ok c4)
    (hadd : add_cooling_overhead r temps = .ok r')
    (i : ℕ) (k : String) (e : ℚ)
    (hget : r.per_component_energy.get? i = some (k, e)) :
    r'.per_component_energy.get? i =
      some (coolingMapFn c4 r.cycles r.cycle_seconds temps (k, e)) := by
  rw [add_cooling_overhead_eq hc4] at hadd
  cases hadd
  rw [List.get?_eq_getElem?] at hget ⊢
  rw [List.getElem?_map, hget]
  rfl

lemma coolingMapFn_of_temp {temps} {c4 : Bool} {cycles cycle_seconds : ℚ}
    {k : String} {e : ℚ} {t : Option ℚ}
    (ht : lookupTemp temps k = some t) :
    coolingMapFn c4 cycles cycle_seconds temps (k, e) =
      (k, updateEnergy c4 cycles cycle_seconds e t) := by
  simp [coolingMapFn, ht]

lemma updateEnergy_of_lt_10 {c4 : Bool} {cycles cycle_seconds e t : ℚ}
    (h : t < 10) :
    updateEnergy c4 cycles cycle_seconds e (some t) = e * 1000 := by
  have h1 : ¬(200 < t ∧ t < 300) := by rintro ⟨h2, _⟩; linarith
  have h2 : ¬(10 < t ∧ t < 80) := by rintro ⟨h2, _⟩; linarith
  simp only [updateEnergy, if_neg h1, if_neg h2, if_pos h]

lemma updateEnergy_of_frame {c4 : Bool} {cycles cycle_seconds e t : ℚ}
    (h10 : ¬ t < 10) (hmid : ¬ (10 < t ∧ t < 80)) :
    updateEnergy c4 cycles cycle_seconds e (some t) = e := by
  by_cases h200 : 200 < t ∧ t < 300
  · simp only [updateEnergy, if_pos h200]
  · simp only [updateEnergy, if_neg h200, if_neg hmid, if_neg h10]

lemma updateEnergy_of_first_stage {c4 : Bool} {cycles cycle_seconds e t : ℚ}
    (h10 : 10 < t) (h80 : t < 80) :
    updateEnergy c4 cycles cycle_seconds e (some t) =
      if c4 then
        if e / (cycles * cycle_seconds) < 80 then e else e * 93.75
      else e * 93.75 := by
  have h200 : ¬(200 < t ∧ t < 300) := by rintro ⟨h, _⟩; linarith
  have hlt : ¬ t < 10 := by linarith
  simp only [updateEnergy, if_neg h200, if_pos (And.intro h10 h80), if_neg hlt]

/-! ## Claims about `add_cooling_overhead` -/

/-- Claim C2: in `add_cooling_overhead`, every component whose temperature is
below 10K has its per-component energy multiplied by 1000, and every
component reported at 300K has its per-component energy left unchanged. -/
theorem c2_second_stage_and_room_temp
    (r : SimResult) (temps : List (String × Option ℚ)) (r' : SimResult)
    (hadd : add_cooling_overhead r temps = .ok r')
    (i : ℕ) (k : String) (e : ℚ) (t : ℚ)
    (hget : r.per_component_energy.get? i = some (k, e))
    (ht : lookupTemp temps k = some (some t)) :
    (t < 10 → r'.per_component_energy.get? i = some (k, e * 1000)) ∧
    (t = 300 → r'.per_component_energy.get? i = some (k, e)) := by
  cases hm : cooling_to_4K temps with
  | error err =>
    unfold add_cooling_overhead at hadd
    rw [hm] at hadd
    exact absurd hadd (by simp)
  | ok c4 =>
    have hmain := add_cooling_overhead_get? hm hadd i k e hget
    rw [coolingMapFn_of_temp ht] at hmain
    constructor
    · intro hlt
      rw [updateEnergy_of_lt_10 hlt] at hmain
      exact hmain
    · intro h300
      subst h300
      rw [updateEnergy_of_frame (by norm_num) (by norm_num)] at hmain
      exact hmain

/-- Witness for C2: a concrete run with one component at 5K and one at
300K. -/
theorem c2_second_stage_and_room_temp_witness :
    ((5 : ℚ) < 10 →
      (SimResult.mk [("a", 2000), ("b", 3)] 1 1 2003).per_component_energy.get? 0 =
        some ("a", 2 * 1000)) ∧
    ((5 : ℚ) = 300 →
      (SimResult.mk [("a", 2000), ("b", 3)] 1 1 2003).per_component_energy.get? 0 =
        some ("a", 2)) := by
  refine c2_second_stage_and_room_temp
    ⟨[("a", 2), ("b", 3)], 1, 1, 0⟩ [("a", some 5), ("b", some 300)]
    ⟨[("a", 2000), ("b", 3)], 1, 1, 2003⟩ ?_ 0 "a" 2 5 (by simp) (by simp [lookupTemp])
  simp [add_cooling_overhead, cooling_to_4K, lookupTemp, updateEnergy]
  norm_num

/-- Claim C10: `add_cooling_overhead` leaves a component's energy unchanged
whenever its temperature is not strictly below 10 and not strictly between
10 and 80: in particular at exactly 10K, exactly 80K, or any temperature of
80K or above (including exactly 200K and exactly 300K) the component
receives no multiplier. -/
theorem c10_no_multiplier_outside_cryo_bands
    (r : SimResult) (temps : List (String × Option ℚ)) (r' : SimResult)
    (hadd : add_cooling_overhead r temps = .ok r')
    (i : ℕ) (k : String) (e : ℚ) (t : ℚ)
    (hget : r.per_component_energy.get? i = some (k, e))
    (ht : lookupTemp temps k = some (some t))
    (h10 : ¬ t < 10) (hmid : ¬ (10 < t ∧ t < 80)) :
    r'.per_component_energy.get? i = some (k, e) := by
  cases hm : cooling_to_4K temps with
  | error err =>
    unfold add_cooling_overhead at hadd
    rw [hm] at hadd
    exact absurd hadd (by simp)
  | ok c4 =>
    have hmain := add_cooling_overhead_get? hm hadd i k e hget
    rw [coolingMapFn_of_temp ht, updateEnergy_of_frame h10 hmid] at hmain
    exact hmain

/-- Witness for C10: a concrete run with a component at exactly 80K is left
unchanged. -/
theorem c10_no_multiplier_outside_cryo_bands_witness :
    (SimResult.mk [("a", 7)] 1 1 7).per_component_energy.get? 0 =
      some ("a", 7) := by
  refine c10_no_multiplier_outside_cryo_bands
    ⟨[("a", 7)], 1, 1, 0⟩ [("a", some 80)] ⟨[("a", 7)], 1, 1, 7⟩ ?_ 0 "a" 7 80
    (by simp) (by simp [lookupTemp]) (by norm_num) (by norm_num)
  simp [add_cooling_overhead, cooling_to_4K, lookupTemp, updateEnergy]
  norm_num

/-- Counterexample to claim C1 as stated: a single component at 50K (so no
co-located sub-10K component) with per-cycle power `1/(1*1) = 1 W`, far
below 80W.  The claim predicts the energy is left unchanged; the code takes
the `else` branch of `cooling_to_4K` and multiplies by 93.75
unconditionally, turning the energy 1 into 375/4. -/
theorem c1_counterexample :
    cooling_to_4K [("pe", some 50)] = .ok false ∧
    (1 : ℚ) / (1 * 1) < 80 ∧
    add_cooling_overhead ⟨[("pe", 1)], 1, 1, 0⟩ [("pe", some 50)] =
      .ok ⟨[("pe", 375 / 4)], 1, 1, 375 / 4⟩ ∧
    (375 / 4 : ℚ) ≠ 1 := by
  refine ⟨?_, by norm_num, ?_, by norm_num⟩
  · simp [cooling_to_4K]
    norm_num
  · simp [add_cooling_overhead, cooling_to_4K, lookupTemp, updateEnergy]
    norm_num

/-- Claim C1 as amended: in `add_cooling_overhead`, for every component whose
temperature is strictly between 10K and 80K, when some component has a
temperature below 10K (4K cooling present) the component's energy is
multiplied by 93.75 only if its per-cycle power is at least 80W and left
unchanged otherwise; when no component has a temperature below 10K the
energy is multiplied by 93.75 unconditionally. -/
theorem c1_amended_first_stage_multiplier
    (r : SimResult) (temps : List (String × Option ℚ)) (r' : SimResult)
    (c4 : Bool)
    (hadd : add_cooling_overhead r temps = .ok r')
    (hc4 : cooling_to_4K temps = .ok c4)
    (i : ℕ) (k : String) (e : ℚ) (t : ℚ)
    (hget : r.per_component_energy.get? i = some (k, e))
    (ht : lookupTemp temps k = some (some t))
    (h10 : 10 < t) (h80 : t < 80) :
    r'.per_component_energy.get? i = some (k,
      if c4 then
        if e / (r.cycles * r.cycle_seconds) < 80 then e else e * 93.75
      else e * 93.75) := by
  have hmain := add_cooling_overhead_get? hc4 hadd i k e hget
  rw [coolingMapFn_of_temp ht, updateEnergy_of_first_stage h10 h80] at hmain
  exact hmain

/-- Witness for the amended C1: the concrete run of the counterexample input,
through the amended theorem. -/
theorem c1_amended_first_stage_multiplier_witness :
    (SimResult.mk [("pe", 375 / 4)] 1 1 (375 / 4)).per_component_energy.get? 0 =
      some ("pe",
        if false then
          if (1 : ℚ) / (1 * 1) < 80 then 1 else 1 * 93.75
        else (1 : ℚ) * 93.75) := by
  refine c1_amended_first_stage_multiplier
    ⟨[("pe", 1)], 1, 1, 0⟩ [("pe", some 50)] ⟨[("pe", 375 / 4)], 1, 1, 375 / 4⟩
    false ?_ (by simp [cooling_to_4K]; norm_num) 0 "pe" 1 50
    (by simp) (by simp [lookupTemp]) (by norm_num) (by norm_num)
  simp [add_cooling_overhead, cooling_to_4K, lookupTemp, updateEnergy]
  norm_num

/-- Claim C3: after `add_cooling_overhead` returns, the result's aggregate
`energy` equals the sum of the (post-overhead) `per_component_energy` values;
the per-component and total energies are updated on the result itself
(in-place mutation is modelled as state passing: the component names, the
cycle count and the cycle period of the given result are preserved). -/
theorem c3_aggregate_is_sum_of_components
    (r : SimResult) (temps : List (String × Option ℚ)) (r' : SimResult)
    (hadd : add_cooling_overhead r temps = .ok r') :
    r'.energy = (r'.per_component_energy.map Prod.snd).sum ∧
    r'.per_component_energy.map Prod.fst =
      r.per_component_energy.map Prod.fst ∧
    r'.cycles = r.cycles ∧ r'.cycle_seconds = r.cycle_seconds := by
  cases hm : cooling_to_4K temps with
  | error err =>
    unfold add_cooling_overhead at hadd
    rw [hm] at hadd
    exact absurd hadd (by simp)
  | ok c4 =>
    rw [add_cooling_overhead_eq hm] at hadd
    cases hadd
    refine ⟨rfl, ?_, rfl, rfl⟩
    rw [List.map_map]
    apply List.map_congr_left
    intro p _
    simp only [Function.comp_apply, coolingMapFn]
    cases lookupTemp temps p.1 <;> rfl

/-- Witness for C3: the concrete run with a component at 5K and one at
300K. -/
theorem c3_aggregate_is_sum_of_components_witness :
    (SimResult.mk [("a", 2000), ("b", 3)] 1 1 2003).energy =
      ((SimResult.mk [("a", 2000), ("b", 3)] 1 1 2003).per_component_energy.map
        Prod.snd).sum ∧
    (SimResult.mk [("a", 2000), ("b", 3)] 1 1 2003).per_component_energy.map
        Prod.fst =
      (SimResult.mk [("a", 2), ("b", 3)] 1 1 0).per_component_energy.map
        Prod.fst ∧
    (SimResult.mk [("a", 2000), ("b", 3)] 1 1 2003).cycles =
      (SimResult.mk [("a", 2), ("b", 3)] 1 1 0).cycles ∧
    (SimResult.mk [("a", 2000), ("b", 3)] 1 1 2003).cycle_seconds =
      (SimResult.mk [("a", 2), ("b", 3)] 1 1 0).cycle_seconds := by
  refine c3_aggregate_is_sum_of_components
    ⟨[("a", 2), ("b", 3)], 1, 1, 0⟩ [("a", some 5), ("b", some 300)]
    ⟨[("a", 2000), ("b", 3)], 1, 1, 2003⟩ ?_
  simp [add_cooling_overhead, cooling_to_4K, lookupTemp, updateEnergy]
  norm_num

/-! ## Claims about the estimators and script helpers -/

/-- Claim C4: for every choice of constructor arguments, the `AQFP_Dlatch`
and `VTcellRAM` estimators return 0 from every action method (`read`,
`write`, `update`) and also from `leak()` and `get_area()`. -/
theorem c4_placeholder_estimators_all_zero :
    ∀ (v : VTcellRAM) (d : AQFP_Dlatch),
      (v.read = 0 ∧ v.write = 0 ∧ v.update = 0 ∧ v.leak = 0 ∧
        v.get_area = 0) ∧
      (d.read = 0 ∧ d.write = 0 ∧ d.update = 0 ∧ d.leak = 0 ∧
        d.get_area = 0) :=
  fun _ _ => ⟨⟨rfl, rfl, rfl, rfl, rfl⟩, ⟨rfl, rfl, rfl, rfl, rfl⟩⟩

/-- Claim C6: `consolidate_keys` applied to `[{"a":1},{"b":2}]` returns
`["a","b"]` when `missing_ok=True`; with `missing_ok=False` it raises
because `"a"` is missing from the second dict. -/
theorem c6_consolidate_keys_example :
    consolidate_keys [[("a", 1)], [("b", 2)]] true = .ok ["a", "b"] ∧
    consolidate_keys [[("a", 1)], [("b", 2)]] false =
      .error "Key missing from dictionary" := by
  constructor <;> simp [consolidate_keys]

/-- Claim C8: in `generate_result`, when producing the sweep point fails:
with `return_none_on_fail = False` the exception propagates to the caller,
and with `return_none_on_fail = True` it is swallowed and `None` is
returned. -/
theorem c8_generate_result_failure_modes :
    ∀ (e : String),
      generate_result false (.error e) = .error e ∧
      generate_result true (.error e) = .ok none :=
  fun _ => ⟨rfl, rfl⟩

/-- Claim C9: for every `CryoSRAM` instance constructed with a supported
`cell_type`, calling `update()` always fails with an out-of-range index
error (modelled as `none`): the `cell2energies` rows hold only the two
entries `[read, write]` while `update()` reads index 2. -/
theorem c9_cryosram_update_always_index_error :
    ∀ (global_cycle_seconds : ℚ) (cell_type : String) (width depth : ℤ)
      (s : CryoSRAM),
      CryoSRAM.init global_cycle_seconds cell_type width depth = .ok s →
      CryoSRAM.update s = none := by
  intro gcs ct w d s h
  by_cases hct : ct = "6T_static"
  · subst hct
    simp [CryoSRAM.init, CryoSRAM.cell2energies, List.find?] at h
    simp [CryoSRAM.update, CryoSRAM.row, CryoSRAM.cell2energies, List.find?,
      ← h]
  · have hbe : ("6T_static" == ct) = false :=
      beq_eq_false_iff_ne.mpr (Ne.symm hct)
    simp [CryoSRAM.init, CryoSRAM.cell2energies, List.find?, hbe] at h

/-- Witness for C9: `update()` on the one supported cell type. -/
theorem c9_cryosram_update_always_index_error_witness :
    CryoSRAM.update ⟨"6T_static", 32, 32, 1⟩ = none := by
  refine c9_cryosram_update_always_index_error 1 "6T_static" 32 32
    ⟨"6T_static", 32, 32, 1⟩ ?_
  simp [CryoSRAM.init, CryoSRAM.cell2energies]

/-- Claim C7: `leak()` and `get_area()` are deterministic pure functions of
the constructor parameters: two instances constructed with identical
parameters yield identical results (stated for the `AQFPEstimator` base and
for `DLMPassive`, the classes the spec points at). -/
theorem c7_leak_get_area_deterministic :
    (∀ (cn : String) (gcs cd : ℚ) (fc : String) (pc : ℤ) (dc : ℚ)
       (s₁ s₂ : AQFPEstimator),
       AQFPEstimator.init cn gcs cd fc pc dc = .ok s₁ →
       AQFPEstimator.init cn gcs cd fc pc dc = .ok s₂ →
       s₁.leak = s₂.leak ∧ s₁.get_area = s₂.get_area) ∧
    (∀ (gcs : ℚ) (ld lc : ℤ) (tb : Option ℚ) (ct : String)
       (s₁ s₂ : DLMPassive),
       DLMPassive.init gcs ld lc tb ct = .ok s₁ →
       DLMPassive.init gcs ld lc tb ct = .ok s₂ →
       s₁.leak = s₂.leak ∧ s₁.get_area = s₂.get_area) := by
  constructor
  · intro cn gcs cd fc pc dc s₁ s₂ h₁ h₂
    rw [h₁] at h₂
    cases h₂
    exact ⟨rfl, rfl⟩
  · intro gcs ld lc tb ct s₁ s₂ h₁ h₂
    rw [h₁] at h₂
    cases h₂
    exact ⟨rfl, rfl⟩

/-- A concrete constructed `AQFPEstimator` for the C7 witness. -/
def aqfpSample : AQFPEstimator :=
  { cell_node := ⟨some 20e-6, some 20e-6, 400e-12, 1.5e-3⟩
    forecast := "conservative", clock_derate := 1, frequency := 1 / 1 / 1
    phase_count := 4, qfp_count := 10 }

/-- A concrete constructed `DLMPassive` for the C7 witness. -/
def dlmSample : DLMPassive :=
  { type := "Nb_mature", global_cycle_seconds := 1, line_depth := 8
    line_count := 4, time_bin := 1, bias_overhead := 1.5 }

/-- Witness for C7: determinism instantiated at concrete constructor
parameters. -/
theorem c7_leak_get_area_deterministic_witness :
    (aqfpSample.leak = aqfpSample.leak ∧
      aqfpSample.get_area = aqfpSample.get_area) ∧
    (dlmSample.leak = dlmSample.leak ∧
      dlmSample.get_area = dlmSample.get_area) :=
  ⟨c7_leak_get_area_deterministic.1 "v1.0" 1 1 "conservative" 4 10
      aqfpSample aqfpSample (by rfl) (by rfl),
    c7_leak_get_area_deterministic.2 1 8 4 (some 1) "Nb_mature"
      dlmSample dlmSample (by rfl) (by rfl)⟩

lemma find_key_isSome {α : Type} (l : List (String × α)) (k : String) :
    (l.find? (fun p => p.1 == k)).isSome = true ↔ k ∈ l.map Prod.fst := by
  induction l with
  | nil => simp
  | cons a l ih =>
    by_cases h : a.1 = k
    · simp [List.find?, h]
    · have hbe : (a.1 == k) = false := beq_eq_false_iff_ne.mpr h
      simp [List.find?, hbe, ih, Ne.symm h]

/-- Claim C5: for every estimator class with key-validated parameters (AQFP
cell node and forecast, DLM and cryo-memory cell type, cold-to-hot amplifier
type, cryo-cable type): construction succeeds for every supported key and
fails with an assertion-style error for any unsupported key.  The
constructors that divide by `global_cycle_seconds` (or `clock_derate`)
require it nonzero, and the two classes that also assert a defined
temperature route require the route to be defined for the success
direction; for the cold-to-hot amplifier and the cable type the failure on
an unsupported key is also stated unconditionally. -/
theorem c5_key_validated_constructors :
    (∀ (cn : String) (gcs cd : ℚ) (fc : String) (pc : ℤ) (dc : ℚ),
       gcs ≠ 0 → cd ≠ 0 →
       ((∃ s, AQFPEstimator.init cn gcs cd fc pc dc = .ok s) ↔
         (cn ∈ CELL_NODE_LOOKUP.map Prod.fst ∧ fc ∈ FORECAST_OPTIONS))) ∧
    (∀ (gcs : ℚ) (ld lc : ℤ) (tb : Option ℚ) (ct : String),
       ((∃ s, DLMPassive.init gcs ld lc tb ct = .ok s) ↔
         ct ∈ DLMPassive.cell2density.map Prod.fst)) ∧
    (∀ (gcs : ℚ) (w d : ℤ) (ct : String),
       ((∃ s, CryoDRAM.init gcs w d ct = .ok s) ↔
         ct ∈ CryoDRAM.cell2energies.map Prod.fst)) ∧
    (∀ (gcs : ℚ) (ct : String) (w d : ℤ),
       ((∃ s, CryoSRAM.init gcs ct w d = .ok s) ↔
         ct ∈ CryoSRAM.cell2energies.map Prod.fst)) ∧
    (∀ (gcs : ℚ) (dw : ℤ) (hot cold : ℚ) (cc : ℤ) (amp : String) (vl : ℚ),
       gcs ≠ 0 →
       (amp ∉ amp_type_options →
         Cold2HotNetwork.init gcs dw hot cold cc amp vl =
           .error "Unsupported amplifier type, must be one of the following") ∧
       (cold2hotRoute hot cold ≠ "" →
         ((∃ s, Cold2HotNetwork.init gcs dw hot cold cc amp vl = .ok s) ↔
           amp ∈ amp_type_options))) ∧
    (∀ (gcs hot cold : ℚ) (cc : ℤ) (ty : String) (eo : Bool) (s1 s2 : ℚ),
       gcs ≠ 0 →
       (ty ∉ CRYOCABLE_LOAD.map Prod.fst →
         ¬ ∃ s, Cables.init gcs hot cold cc (.str ty) eo s1 s2 = .ok s) ∧
       (cablesRoute hot cold ≠ "" →
         ((∃ s, Cables.init gcs hot cold cc (.str ty) eo s1 s2 = .ok s) ↔
           ty ∈ CRYOCABLE_LOAD.map Prod.fst))) := by
  refine ⟨?_, ?_, ?_, ?_, ?_, ?_⟩
  · intro cn gcs cd fc pc dc _ _
    cases hf : CELL_NODE_LOOKUP.find? (fun p => p.1 == cn) with
    | none =>
      have hmem : ¬ cn ∈ CELL_NODE_LOOKUP.map Prod.fst := by
        rw [← find_key_isSome]
        simp [hf]
      simp [AQFPEstimator.init, hf, hmem]
    | some p =>
      have hmem : cn ∈ CELL_NODE_LOOKUP.map Prod.fst := by
        rw [← find_key_isSome]
        simp [hf]
      by_cases hfc : fc ∈ FORECAST_OPTIONS
      · simp [AQFPEstimator.init, hf, hfc, hmem]
      · simp [AQFPEstimator.init, hf, hfc, hmem]
  · intro gcs ld lc tb ct
    by_cases hmem : ct ∈ DLMPassive.cell2density.map Prod.fst
    · have hs : (DLMPassive.cell2density.find?
          (fun p => p.1 == ct)).isSome = true :=
        (find_key_isSome _ _).mpr hmem
      simp [DLMPassive.init, hs, hmem]
    · have hs : ¬ (DLMPassive.cell2density.find?
          (fun p => p.1 == ct)).isSome = true :=
        fun h => hmem ((find_key_isSome _ _).mp h)
      simp [DLMPassive.init, hs, hmem]
  · intro gcs w d ct
    by_cases hmem : ct ∈ CryoDRAM.cell2energies.map Prod.fst
    · have hs : (CryoDRAM.cell2energies.find?
          (fun p => p.1 == ct)).isSome = true :=
        (find_key_isSome _ _).mpr hmem
      simp [CryoDRAM.init, hs, hmem]
    · have hs : ¬ (CryoDRAM.cell2energies.find?
          (fun p => p.1 == ct)).isSome = true :=
        fun h => hmem ((find_key_isSome _ _).mp h)
      simp [CryoDRAM.init, hs, hmem]
  · intro gcs ct w d
    by_cases hmem : ct ∈ CryoSRAM.cell2energies.map Prod.fst
    · have hs : (CryoSRAM.cell2energies.find?
          (fun p => p.1 == ct)).isSome = true :=
        (find_key_isSome _ _).mpr hmem
      simp [CryoSRAM.init, hs, hmem]
    · have hs : ¬ (CryoSRAM.cell2energies.find?
          (fun p => p.1 == ct)).isSome = true :=
        fun h => hmem ((find_key_isSome _ _).mp h)
      simp [CryoSRAM.init, hs, hmem]
  · intro gcs dw hot cold cc amp vl _
    constructor
    · intro hamp
      simp [Cold2HotNetwork.init, hamp]
    · intro hroute
      by_cases hamp : amp ∈ amp_type_options
      · simp [Cold2HotNetwork.init, hamp, hroute]
      · simp [Cold2HotNetwork.init, hamp]
  · intro gcs hot cold cc ty eo s1 s2 _
    constructor
    · intro hmem
      by_cases hroute : cablesRoute hot cold = ""
      · simp [Cables.init, hroute]
      · cases hf : CRYOCABLE_LOAD.find? (fun p => p.1 == ty) with
        | none => simp [Cables.init, hroute, hf]
        | some p =>
          exfalso
          apply hmem
          rw [← find_key_isSome]
          simp [hf]
    · intro hroute
      cases hf : CRYOCABLE_LOAD.find? (fun p => p.1 == ty) with
      | none =>
        have hmem : ¬ ty ∈ CRYOCABLE_LOAD.map Prod.fst := by
          rw [← find_key_isSome]
          simp [hf]
        simp [Cables.init, hroute, hf, hmem]
      | some p =>
        have hmem : ty ∈ CRYOCABLE_LOAD.map Prod.fst := by
          rw [← find_key_isSome]
          simp [hf]
        simp [Cables.init, hroute, hf, hmem]

/-- Witness for C5: the six parts instantiated at concrete constructor
arguments (a defined route `300K -> 4K`, unit cycle time). -/
theorem c5_key_validated_constructors_witness :
    ((∃ s, AQFPEstimator.init "v1.0" 1 1 "conservative" 4 10 = .ok s) ↔
      ("v1.0" ∈ CELL_NODE_LOOKUP.map Prod.fst ∧
        "conservative" ∈ FORECAST_OPTIONS)) ∧
    ((∃ s, DLMPassive.init 1 8 4 none "NbN_academic" = .ok s) ↔
      "NbN_academic" ∈ DLMPassive.cell2density.map Prod.fst) ∧
    ((∃ s, CryoDRAM.init 1 32 32 "3T_PW-PR" = .ok s) ↔
      "3T_PW-PR" ∈ CryoDRAM.cell2energies.map Prod.fst) ∧
    ((∃ s, CryoSRAM.init 1 "6T_static" 32 32 = .ok s) ↔
      "6T_static" ∈ CryoSRAM.cell2energies.map Prod.fst) ∧
    (("aqfp_diffamp" ∉ amp_type_options →
        Cold2HotNetwork.init 1 8 300 4 16 "aqfp_diffamp" 1.1 =
          .error "Unsupported amplifier type, must be one of the following") ∧
      (cold2hotRoute 300 4 ≠ "" →
        ((∃ s, Cold2HotNetwork.init 1 8 300 4 16 "aqfp_diffamp" 1.1 = .ok s) ↔
          "aqfp_diffamp" ∈ amp_type_options))) ∧
    (("delft_crioflex_Ag" ∉ CRYOCABLE_LOAD.map Prod.fst →
        ¬ ∃ s, Cables.init 1 300 4 16 (.str "delft_crioflex_Ag") false 0 0 =
          .ok s) ∧
      (cablesRoute 300 4 ≠ "" →
        ((∃ s, Cables.init 1 300 4 16 (.str "delft_crioflex_Ag") false 0 0 =
            .ok s) ↔
          "delft_crioflex_Ag" ∈ CRYOCABLE_LOAD.map Prod.fst))) :=
  ⟨c5_key_validated_constructors.1 "v1.0" 1 1 "conservative" 4 10
      (by norm_num) (by norm_num),
    c5_key_validated_constructors.2.1 1 8 4 none "NbN_academic",
    c5_key_validated_constructors.2.2.1 1 32 32 "3T_PW-PR",
    c5_key_validated_constructors.2.2.2.1 1 "6T_static" 32 32,
    c5_key_validated_constructors.2.2.2.2.1 1 8 300 4 16 "aqfp_diffamp" 1.1
      (by norm_num),
    c5_key_validated_constructors.2.2.2.2.2 1 300 4 16 "delft_crioflex_Ag"
      false 0 0 (by norm_num)⟩

end Superloop
